import Mathlib

/-!
Shallow embedding of the error-handling layer of the blackbox e-commerce
backend: the `AppError` hierarchy, the MongoDB/JWT failure-shape handlers,
the development/production response formatters and the global error
middleware from `src/middlewares/errorHandler.ts`, the API not-found
responder (`apiNotFoundHandler`), and the graceful-shutdown wiring from the
server entry point.  Theorems at the end check the specification's claims
against these definitions.
-/

namespace BlackBox

/-- JavaScript truthiness of a possibly-undefined boolean property
(`undefined` and `false` are falsy). -/
def truthy (o : Option Bool) : Bool := o.getD false

/-- `a || d` on a possibly-undefined numeric property: `undefined` and `0`
are falsy, so they yield the default. -/
def jsOrNat : Option Nat → Nat → Nat
  | some n, d => if n = 0 then d else n
  | none, d => d

/-- `a || d` on a possibly-undefined string property: `undefined` and the
empty string are falsy, so they yield the default. -/
def jsOrStr : Option String → String → String
  | some s, d => if s = "" then d else s
  | none, d => d

/-- Reading a possibly-undefined string property inside a template literal:
`undefined` prints as the string `undefined`. -/
def jsShow : Option String → String
  | some s => s
  | none => "undefined"

/-- `s.includes(sub)` of JavaScript: `sub` occurs as a contiguous substring
of `s`. -/
def jsIncludes (s sub : String) : Bool := decide (sub.data <:+: s.data)

/-- Model of a JavaScript error-like object as it reaches the error
pipeline.  Property reads that may find nothing are `Option`s.  The
`…OwnEnum` flags record whether the corresponding property is an *own
enumerable* property of the object: object spread `{ ...err }` copies own
enumerable properties only.  On a V8 `Error` instance, `message` and
`stack` are own but non-enumerable and `name` lives on the prototype,
while properties set by plain assignment (`statusCode`, `status`,
`isOperational`) are own and enumerable. -/
structure ErrObj where
  name : Option String
  nameOwnEnum : Bool
  message : String
  stack : Option String
  stackOwnEnum : Bool
  statusCode : Option Nat
  status : Option String
  isOperational : Option Bool
  isOperationalOwnEnum : Bool
  code : Option Int
  path : Option String
  value : Option String
  validationMessages : List String
  keyValue : List (String × String)
deriving DecidableEq

/-- The JSON body written by the middleware, together with the HTTP status
it is sent with.  `name` and `stack` are `Option`s: `JSON.stringify` drops
a key whose value is `undefined`, so `none` means the field is absent from
the body. -/
structure ErrorResponse where
  status : Nat
  success : Bool
  message : String
  code : String
  timestamp : String
  name : Option String
  stack : Option String
deriving DecidableEq

/-- `new AppError(message, statusCode)`: sets `statusCode` and
`isOperational := true` as own enumerable properties; `message` is set by
the `Error` constructor (own, non-enumerable), `name` is `"Error"` from the
prototype, and `Error.captureStackTrace` installs a runtime-generated stack
trace as an own non-enumerable property (the model abstracts its text and
records only that one is present). -/
def AppError (message : String) (statusCode : Nat) : ErrObj :=
  { name := some "Error"
    nameOwnEnum := false
    message := message
    stack := some "<captured stack trace>"
    stackOwnEnum := false
    statusCode := some statusCode
    status := none
    isOperational := some true
    isOperationalOwnEnum := true
    code := none
    path := none
    value := none
    validationMessages := []
    keyValue := [] }

/-- `class AuthenticationError extends AppError` (default message
`"Authentication failed"`, status 401). -/
def AuthenticationError (message : String) : ErrObj := AppError message 401

/-- `class AuthorizationError extends AppError` (default message
`"You are not authorized to perform this action"`, status 403). -/
def AuthorizationError (message : String) : ErrObj := AppError message 403

/-- `class NotFoundError extends AppError`: message is
`` `${resource} not found` `` with status 404. -/
def NotFoundError (resource : String) : ErrObj :=
  AppError (resource ++ " not found") 404

/-- `class ConflictError extends AppError` (default message
`"Resource already exists"`, status 409). -/
def ConflictError (message : String) : ErrObj := AppError message 409

/-- `class BadRequestError extends AppError` (default message
`"Bad request"`, status 400). -/
def BadRequestError (message : String) : ErrObj := AppError message 400

/-- `class InternalServerError extends AppError` (default message
`"Internal server error"`, status 500). -/
def InternalServerError (message : String) : ErrObj := AppError message 500

/-- Handle MongoDB cast error (invalid ObjectId): message
`` `Invalid ${error.path}: ${error.value}` `` with status 400. -/
def handleCastError (error : ErrObj) : ErrObj :=
  AppError ("Invalid " ++ jsShow error.path ++ ": " ++ jsShow error.value) 400

/-- Handle MongoDB validation error: the messages of
`Object.values(error.errors)` joined by `". "`, prefixed by
`"Invalid input data. "`, with status 400. -/
def handleValidationError (error : ErrObj) : ErrObj :=
  AppError ("Invalid input data. " ++
    String.intercalate ". " error.validationMessages) 400

/-- Handle MongoDB duplicate key error: the first key/value pair of
`error.keyValue`, formatted as
`` `${field} '${value}' already exists. Please use another value.` ``,
with status 400. -/
def handleDuplicateKeyError (error : ErrObj) : ErrObj :=
  let field := jsShow (error.keyValue.head?.map Prod.fst)
  let value := jsShow (error.keyValue.head?.map Prod.snd)
  AppError (field ++ " '" ++ value ++ "' already exists. Please use another value.") 400

/-- Handle a malformed JWT. -/
def handleJWTError : ErrObj :=
  AppError "Invalid token. Please log in again." 401

/-- Handle an expired JWT. -/
def handleJWTExpiredError : ErrObj :=
  AppError "Your token has expired. Please log in again." 401

/-- Helper generating symbolic error codes from the status code and
message. -/
def getErrorCode (statusCode : Nat) (message : String) : String :=
  if statusCode = 404 then
    if jsIncludes message "find" then "ROUTE_NOT_FOUND"
    else "RESOURCE_NOT_FOUND"
  else if statusCode = 401 then "UNAUTHORIZED"
  else if statusCode = 403 then "FORBIDDEN"
  else if statusCode = 400 then "BAD_REQUEST"
  else if statusCode = 409 then "CONFLICT"
  else if statusCode = 422 then "VALIDATION_ERROR"
  else if statusCode = 429 then "RATE_LIMIT_EXCEEDED"
  else "SERVER_ERROR"

/-- Send error response in development.  `isDev` is the
`process.env.NODE_ENV === "development"` check guarding the `stack`
spread; `now` stands for `new Date().toISOString()`.  A field read off the
error that is `undefined` is dropped from the JSON body (`name`, `stack`).
`statusCode` is always set before this is reached; `getD 0` stands for an
(unreachable) undefined read. -/
def sendErrorDev (isDev : Bool) (now : String) (err : ErrObj) : ErrorResponse :=
  { status := err.statusCode.getD 0
    success := false
    message := err.message
    code := getErrorCode (err.statusCode.getD 0) err.message
    timestamp := now
    name := err.name
    stack := if isDev then err.stack else none }

/-- Send error response in production: an operational, trusted error has
its message and derived code sent to the client; any other error is
replaced by a fixed generic body with status 500.  Neither branch puts a
`name` or `stack` field in the body. -/
def sendErrorProd (now : String) (err : ErrObj) : ErrorResponse :=
  if truthy err.isOperational then
    { status := err.statusCode.getD 0
      success := false
      message := err.message
      code := getErrorCode (err.statusCode.getD 0) err.message
      timestamp := now
      name := none
      stack := none }
  else
    { status := 500
      success := false
      message := "Internal server error. Please try again later."
      code := "INTERNAL_SERVER_ERROR"
      timestamp := now
      name := none
      stack := none }

/-- `let error = { ...err }`: object spread copies own enumerable
properties only, so `name`, `stack` and `isOperational` survive only when
their `…OwnEnum` flag is set.  `statusCode` and `status` were just written
by plain assignment (making them own enumerable), so they survive.  The
spread would also drop a non-enumerable `message`, but the handler
reassigns `error.message = err.message` right after the spread, so the
composite of the two lines is modelled here with `message` preserved.
Fields the pipeline never reads off the copy are carried over unchanged. -/
def spreadCopy (e : ErrObj) : ErrObj :=
  { e with
    name := if e.nameOwnEnum then e.name else none
    stack := if e.stackOwnEnum then e.stack else none
    isOperational := if e.isOperationalOwnEnum then e.isOperational else none }

/-- Main error handling middleware: default `statusCode`/`status`, copy the
error, run the shape handlers (each `if` overwrites the previous result
when its shape matches), then send the development or production
response. -/
def globalErrorHandler (isDev : Bool) (now : String) (e : ErrObj) : ErrorResponse :=
  let err : ErrObj :=
    { e with
      statusCode := some (jsOrNat e.statusCode 500)
      status := some (jsOrStr e.status "error") }
  let error0 := spreadCopy err
  let error1 := if err.name = some "CastError" then handleCastError err else error0
  let error2 := if err.name = some "ValidationError" then handleValidationError err else error1
  let error3 := if err.code = some 11000 then handleDuplicateKeyError err else error2
  let error4 := if err.name = some "JsonWebTokenError" then handleJWTError else error3
  let error5 := if err.name = some "TokenExpiredError" then handleJWTExpiredError else error4
  if isDev then sendErrorDev isDev now error5 else sendErrorProd now error5

/-- The static directory of known resource groups used for suggestions
(`apiRoutes` object literal of the enhanced API 404 handler), looked up by
the first path segment after `api`. -/
def apiRoutes (resource : String) : Option (List String) :=
  if resource = "auth" then
    some ["/api/auth/register", "/api/auth/login", "/api/auth/logout",
      "/api/auth/profile", "/api/auth/forgot-password",
      "/api/auth/reset-password", "/api/auth/change-password"]
  else if resource = "products" then
    some ["/api/products", "/api/products/search", "/api/products/featured",
      "/api/products/{id}", "/api/products/{id}/reviews"]
  else if resource = "categories" then
    some ["/api/categories", "/api/categories/tree", "/api/categories/{id}"]
  else if resource = "cart" then
    some ["/api/cart", "/api/cart/add", "/api/cart/update",
      "/api/cart/remove", "/api/cart/clear"]
  else if resource = "orders" then
    some ["/api/orders", "/api/orders/my-orders", "/api/orders/{id}",
      "/api/orders/{id}/cancel"]
  else if resource = "reviews" then
    some ["/api/reviews", "/api/reviews/product/{id}", "/api/reviews/{id}"]
  else if resource = "users" then
    some ["/api/users/profile", "/api/users/addresses", "/api/users/orders"]
  else if resource = "wishlist" then
    some ["/api/wishlist", "/api/wishlist/add", "/api/wishlist/remove"]
  else if resource = "coupons" then
    some ["/api/coupons/active", "/api/coupons/validate"]
  else if resource = "banners" then
    some ["/api/banners/active"]
  else if resource = "admin" then
    some ["/api/admin/dashboard", "/api/admin/users", "/api/admin/orders",
      "/api/admin/products", "/api/admin/categories"]
  else none

/-- The fallback suggestions used when the resource segment matches no
known group. -/
def commonSuggestions : List String :=
  ["/api/auth/login", "/api/auth/register", "/api/products",
   "/api/categories", "/api/orders"]

/-- The suggestion list of the API 404 handler: lowercase the URL, split it
on `/`, drop empty segments, and look the segment after `api` up in the
static directory, falling back to the common suggestions. -/
def apiSuggestions (originalUrl : String) : List String :=
  let pathSegments := (originalUrl.toLower.splitOn "/").filter (fun s => s ≠ "")
  match (pathSegments.get? 1).bind apiRoutes with
  | some l => l
  | none => commonSuggestions

/-- The fixed troubleshooting tips appended to every API 404 message. -/
def troubleshootingTips : List String :=
  ["Check if the HTTP method (GET, POST, PUT, DELETE) is correct",
   "Ensure all required parameters are included",
   "Verify the endpoint URL spelling and format",
   "Check if authentication is required for this endpoint"]

/-- The message constructed by the API 404 handler: the method and URL, up
to five suggestions, a documentation link built from the request's
protocol and host, and the troubleshooting tips. -/
def apiNotFoundMessage (method originalUrl protocol host : String) : String :=
  let suggestions := apiSuggestions originalUrl
  let m0 := "API endpoint '" ++ method ++ " " ++ originalUrl ++ "' not found."
  let m1 :=
    if suggestions.length > 0 then
      m0 ++ "\n\nDid you mean one of these:" ++
        String.join ((suggestions.take 5).map (fun s => "\n  • " ++ s))
    else m0
  let m2 := m1 ++ "\n\nFor complete API documentation, visit: " ++
    protocol ++ "://" ++ host ++ "/docs"
  m2 ++ "\n\nTroubleshooting tips:" ++
    String.join (troubleshootingTips.map (fun t => "\n  • " ++ t))

/-- Enhanced 404 handler for API routes: a request outside the `/api/`
prefix is passed through (`none`); otherwise `next` receives an `AppError`
with status 404 and the suggestion message.  `startsWith` is modelled as a
prefix of the character list. -/
def apiNotFoundHandler (method originalUrl protocol host : String) : Option ErrObj :=
  if "/api/".data <+: originalUrl.data then
    some (AppError (apiNotFoundMessage method originalUrl protocol host) 404)
  else none

/-- State of the node process around the graceful-shutdown wiring of the
server entry point: whether `app.listen` has assigned the `server`
variable, how many times `server.close` has been invoked, and the exit
codes passed to `process.exit` so far (in order). -/
structure ProcessState where
  serverStarted : Bool
  closeCalls : Nat
  exitCalls : List Nat
deriving DecidableEq

/-- One invocation of the closure returned by `gracefulShutdown(signal)`,
run on each delivery of `SIGTERM`/`SIGINT`: if `server` is set, invoke
`server.close` (its callback runs later); otherwise call `process.exit(0)`
at once.  The code keeps no record of a shutdown being already in
progress. -/
def gracefulShutdown (s : ProcessState) : ProcessState :=
  if s.serverStarted then { s with closeCalls := s.closeCalls + 1 }
  else { s with exitCalls := s.exitCalls ++ [0] }

/-- The callback handed to `server.close`, run once the server has
finished closing: logs and calls `process.exit(0)`. -/
def serverCloseCallback (s : ProcessState) : ProcessState :=
  { s with exitCalls := s.exitCalls ++ [0] }

/-- A plain `new Error(msg)` raised somewhere in the stack: `message` and
`stack` are own non-enumerable properties, `name` is `"Error"` from the
prototype, and none of the pipeline's own fields are present. -/
def plainError (msg trace : String) : ErrObj :=
  { name := some "Error"
    nameOwnEnum := false
    message := msg
    stack := some trace
    stackOwnEnum := false
    statusCode := none
    status := none
    isOperational := none
    isOperationalOwnEnum := false
    code := none
    path := none
    value := none
    validationMessages := []
    keyValue := [] }

/-- A Mongoose cast failure: name `CastError` with `path` and `value`. -/
def castErrorInput : ErrObj :=
  { plainError "Cast to ObjectId failed" "trace" with
    name := some "CastError", path := some "_id", value := some "abc123" }

/-- A MongoDB duplicate-key failure: numeric code 11000 with a `keyValue`
map. -/
def duplicateKeyInput : ErrObj :=
  { plainError "E11000 duplicate key error" "trace" with
    code := some 11000, keyValue := [("email", "a@b.com")] }

/-- A Mongoose validation failure carrying two field-level sub-errors. -/
def validationInput : ErrObj :=
  { plainError "Validation failed" "trace" with
    name := some "ValidationError"
    validationMessages := ["Name is required", "Email is invalid"] }

/-- A failure object matching both the cast shape (name `CastError` with
`path`/`value`) and the duplicate-key shape (code 11000 with `keyValue`). -/
def overlappingInput : ErrObj :=
  { plainError "Cast to ObjectId failed" "trace" with
    name := some "CastError", path := some "_id", value := some "abc"
    code := some 11000, keyValue := [("email", "a@b.com")] }

/-- An already-classified operational error (an `AppError` instance as the
pipeline receives it): explicit status code, `isOperational = true` own and
enumerable, matching none of the specific failure shapes. -/
def operationalInput : ErrObj :=
  { plainError "User not found" "trace" with
    statusCode := some 404, isOperational := some true
    isOperationalOwnEnum := true }

/-- The process right after `app.listen` succeeded: the `server` variable
is set, no close or exit has happened. -/
def runningState : ProcessState :=
  { serverStarted := true, closeCalls := 0, exitCalls := [] }

/-! Theorems: the specification's claims checked against the embedding. -/

/-- C1: in production mode (`sendErrorProd`), every error whose
`isOperational` flag is not `true` is answered with status exactly 500,
body message exactly "Internal server error. Please try again later.",
symbolic code `INTERNAL_SERVER_ERROR`, and no `stack` (and no `name`)
field in the body. -/
theorem c1_prod_nonoperational_generic (now : String) (e : ErrObj)
    (h : truthy e.isOperational = false) :
    sendErrorProd now e =
      { status := 500
        success := false
        message := "Internal server error. Please try again later."
        code := "INTERNAL_SERVER_ERROR"
        timestamp := now
        name := none
        stack := none } := by
  simp [sendErrorProd, h]

/-- Witness for C1: a plain error (no `isOperational` property at all) in
production mode. -/
theorem c1_witness :
    truthy (plainError "boom" "trace").isOperational = false ∧
    sendErrorProd "T" (plainError "boom" "trace") =
      { status := 500
        success := false
        message := "Internal server error. Please try again later."
        code := "INTERNAL_SERVER_ERROR"
        timestamp := "T"
        name := none
        stack := none } :=
  ⟨rfl, c1_prod_nonoperational_generic "T" (plainError "boom" "trace") rfl⟩

/-- C3: a cast failure with `path` and `value` is classified with status
400 and message exactly `Invalid <field>: <value>`, and a duplicate-key
failure is classified with status 400 and message exactly
`<field> '<value>' already exists. Please use another value.` for the
first field of its `keyValue` map. -/
theorem c3_cast_and_duplicate_messages (e₁ e₂ : ErrObj) (p v f w : String)
    (rest : List (String × String))
    (h₁ : e₁.path = some p) (h₂ : e₁.value = some v)
    (h₃ : e₂.keyValue = (f, w) :: rest) :
    (handleCastError e₁).statusCode = some 400 ∧
    (handleCastError e₁).message = "Invalid " ++ p ++ ": " ++ v ∧
    (handleDuplicateKeyError e₂).statusCode = some 400 ∧
    (handleDuplicateKeyError e₂).message =
      f ++ " '" ++ w ++ "' already exists. Please use another value." := by
  simp [handleCastError, handleDuplicateKeyError, AppError, jsShow, h₁, h₂, h₃]

/-- Witness for C3: the spec's duplicate-key example on field `email` with
value `a@b.com`, next to a concrete cast failure. -/
theorem c3_witness :
    castErrorInput.path = some "_id" ∧
    castErrorInput.value = some "abc123" ∧
    duplicateKeyInput.keyValue = [("email", "a@b.com")] ∧
    (handleCastError castErrorInput).message = "Invalid _id: abc123" ∧
    (handleDuplicateKeyError duplicateKeyInput).statusCode = some 400 ∧
    (handleDuplicateKeyError duplicateKeyInput).message =
      "email 'a@b.com' already exists. Please use another value." :=
  ⟨rfl, rfl, rfl,
   (c3_cast_and_duplicate_messages castErrorInput duplicateKeyInput
      "_id" "abc123" "email" "a@b.com" [] rfl rfl rfl).2.1,
   (c3_cast_and_duplicate_messages castErrorInput duplicateKeyInput
      "_id" "abc123" "email" "a@b.com" [] rfl rfl rfl).2.2.1,
   (c3_cast_and_duplicate_messages castErrorInput duplicateKeyInput
      "_id" "abc123" "email" "a@b.com" [] rfl rfl rfl).2.2.2⟩

/-- C4 counterexample: on a validation failure with field messages
"Name is required" and "Email is invalid", the classified message is NOT
the bare join of the field messages: the code prepends
"Invalid input data. ". -/
theorem c4_counterexample :
    (handleValidationError validationInput).message =
      "Invalid input data. Name is required. Email is invalid" ∧
    (handleValidationError validationInput).message ≠
      "Name is required. Email is invalid" := by
  exact ⟨rfl, by decide⟩

/-- C4 (amended): a validation failure is classified with status 400 and
message equal to the fixed prefix "Invalid input data. " followed by the
field messages joined by ". ". -/
theorem c4_validation_message (e : ErrObj) :
    (handleValidationError e).statusCode = some 400 ∧
    (handleValidationError e).message =
      "Invalid input data. " ++ String.intercalate ". " e.validationMessages :=
  ⟨rfl, rfl⟩

/-- C5: the symbolic-code derivation returns `ROUTE_NOT_FOUND` for 404
with "find" in the message, `RESOURCE_NOT_FOUND` for other 404s,
`UNAUTHORIZED` for 401, `FORBIDDEN` for 403, `BAD_REQUEST` for 400,
`CONFLICT` for 409, `VALIDATION_ERROR` for 422, `RATE_LIMIT_EXCEEDED` for
429, and `SERVER_ERROR` for every other status code. -/
theorem c5_getErrorCode_table (s : Nat) (m : String) :
    (s = 404 → jsIncludes m "find" = true → getErrorCode s m = "ROUTE_NOT_FOUND") ∧
    (s = 404 → jsIncludes m "find" = false → getErrorCode s m = "RESOURCE_NOT_FOUND") ∧
    (s = 401 → getErrorCode s m = "UNAUTHORIZED") ∧
    (s = 403 → getErrorCode s m = "FORBIDDEN") ∧
    (s = 400 → getErrorCode s m = "BAD_REQUEST") ∧
    (s = 409 → getErrorCode s m = "CONFLICT") ∧
    (s = 422 → getErrorCode s m = "VALIDATION_ERROR") ∧
    (s = 429 → getErrorCode s m = "RATE_LIMIT_EXCEEDED") ∧
    (s ∉ ([404, 401, 403, 400, 409, 422, 429] : List Nat) →
      getErrorCode s m = "SERVER_ERROR") := by
  refine ⟨?_, ?_, ?_, ?_, ?_, ?_, ?_, ?_, ?_⟩
  · rintro rfl h; simp [getErrorCode, h]
  · rintro rfl h; simp [getErrorCode, h]
  · rintro rfl; simp [getErrorCode]
  · rintro rfl; simp [getErrorCode]
  · rintro rfl; simp [getErrorCode]
  · rintro rfl; simp [getErrorCode]
  · rintro rfl; simp [getErrorCode]
  · rintro rfl; simp [getErrorCode]
  · intro h
    simp only [List.mem_cons, List.not_mem_nil, or_false] at h
    push_neg at h
    obtain ⟨h1, h2, h3, h4, h5, h6, h7⟩ := h
    simp [getErrorCode, h1, h2, h3, h4, h5, h6, h7]

/-- Witness for C5: both 404 branches and the default branch at concrete
inputs. -/
theorem c5_witness :
    getErrorCode 404 "Can not find /api/v2 on this server" = "ROUTE_NOT_FOUND" ∧
    getErrorCode 404 "User does not exist" = "RESOURCE_NOT_FOUND" ∧
    getErrorCode 418 "teapot" = "SERVER_ERROR" :=
  ⟨(c5_getErrorCode_table 404 "Can not find /api/v2 on this server").1 rfl (by decide),
   (c5_getErrorCode_table 404 "User does not exist").2.1 rfl (by decide),
   (c5_getErrorCode_table 418 "teapot").2.2.2.2.2.2.2.2 (by decide)⟩

/-- C10: every constructor of the `AppError` hierarchy (including every
subclass, and in particular `InternalServerError` with status 500) sets
`isOperational = true`, so a production response for any of them carries
the constructor's message verbatim. -/
theorem c10_hierarchy_operational (m r now : String) (n : Nat) :
    (AppError m n).isOperational = some true ∧
    (AuthenticationError m).isOperational = some true ∧
    (AuthorizationError m).isOperational = some true ∧
    (NotFoundError r).isOperational = some true ∧
    (ConflictError m).isOperational = some true ∧
    (BadRequestError m).isOperational = some true ∧
    (InternalServerError m).isOperational = some true ∧
    (InternalServerError m).statusCode = some 500 ∧
    (sendErrorProd now (InternalServerError m)).message = m ∧
    (sendErrorProd now (InternalServerError m)).status = 500 :=
  ⟨rfl, rfl, rfl, rfl, rfl, rfl, rfl, rfl, rfl, rfl⟩

/-- C2 counterexample: a failure matching both the "invalid identifier"
shape (name `CastError`) and the "uniqueness violation" shape (code 11000)
is classified by the LATER duplicate-key rule, not by the earliest
matching rule: the response message is the duplicate-key message, not
`Invalid _id: abc`. -/
theorem c2_counterexample :
    (globalErrorHandler false "T" overlappingInput).message =
      "email 'a@b.com' already exists. Please use another value." ∧
    (globalErrorHandler false "T" overlappingInput).message ≠
      "Invalid _id: abc" := by
  exact ⟨rfl, by decide⟩

/-- C2 (amended): the handler chain applies every matching rule in order,
each overwriting the previous result, so when several shapes match the
LAST matching rule in the listed order wins; in particular an error
matching both the cast shape and the duplicate-key shape yields the
duplicate-key rule's status 400 and message, in both modes. -/
theorem c2_last_match_wins (isDev : Bool) (now : String) (e : ErrObj)
    (h₁ : e.name = some "CastError") (h₂ : e.code = some 11000) :
    (globalErrorHandler isDev now e).status = 400 ∧
    (globalErrorHandler isDev now e).message =
      jsShow (e.keyValue.head?.map Prod.fst) ++ " '" ++
      jsShow (e.keyValue.head?.map Prod.snd) ++
      "' already exists. Please use another value." := by
  cases isDev <;>
    simp [globalErrorHandler, h₁, h₂, handleCastError, handleDuplicateKeyError,
      AppError, sendErrorDev, sendErrorProd, truthy, spreadCopy]

/-- Witness for C2 (amended) at the overlapping failure object. -/
theorem c2_witness :
    overlappingInput.name = some "CastError" ∧
    overlappingInput.code = some 11000 ∧
    (globalErrorHandler false "T" overlappingInput).status = 400 :=
  ⟨rfl, rfl, (c2_last_match_wins false "T" overlappingInput rfl rfl).1⟩

/-- C6: evaluation at the failing input.  A plain error matching none of
the specific shapes, handled in development mode, is answered WITHOUT a
`stack` field and WITHOUT a `name` field (only the original message
survives): the spread copy `{ ...err }` drops the non-enumerable `stack`
and the prototype `name`, so the development response loses both, although
the incoming error did carry a stack trace and the name `Error`. -/
theorem c6_dev_response_loses_stack_and_name :
    globalErrorHandler true "T" (plainError "boom" "Error: boom at main") =
      { status := 500
        success := false
        message := "boom"
        code := "SERVER_ERROR"
        timestamp := "T"
        name := none
        stack := none } ∧
    (plainError "boom" "Error: boom at main").stack =
      some "Error: boom at main" ∧
    (plainError "boom" "Error: boom at main").name = some "Error" :=
  ⟨rfl, rfl, rfl⟩

/-- C7: an error that already carries an explicit (non-zero) status code,
has `isOperational = true` as an own enumerable property, and matches none
of the specific failure shapes passes through classification unchanged:
the response carries the input's status code, its message, and the
symbolic code derived from them, in both modes. -/
theorem c7_passthrough (isDev : Bool) (now : String) (e : ErrObj) (n : Nat)
    (hn : e.statusCode = some n) (hn0 : n ≠ 0)
    (hop : e.isOperational = some true) (hoe : e.isOperationalOwnEnum = true)
    (h₁ : e.name ≠ some "CastError") (h₂ : e.name ≠ some "ValidationError")
    (h₃ : e.name ≠ some "JsonWebTokenError") (h₄ : e.name ≠ some "TokenExpiredError")
    (h₅ : e.code ≠ some 11000) :
    (globalErrorHandler isDev now e).status = n ∧
    (globalErrorHandler isDev now e).message = e.message ∧
    (globalErrorHandler isDev now e).code = getErrorCode n e.message := by
  cases isDev <;>
    simp [globalErrorHandler, spreadCopy, sendErrorDev, sendErrorProd, truthy,
      jsOrNat, jsOrStr, hn, hn0, hop, hoe, h₁, h₂, h₃, h₄, h₅]

/-- Witness for C7: an already-classified operational 404 passes through
with its status and message intact. -/
theorem c7_witness :
    operationalInput.statusCode = some 404 ∧
    operationalInput.isOperational = some true ∧
    (globalErrorHandler false "T" operationalInput).status = 404 ∧
    (globalErrorHandler false "T" operationalInput).message = "User not found" :=
  ⟨rfl, rfl,
   (c7_passthrough false "T" operationalInput 404 rfl (by decide) rfl rfl
      (by decide) (by decide) (by decide) (by decide) (by decide)).1,
   (c7_passthrough false "T" operationalInput 404 rfl (by decide) rfl rfl
      (by decide) (by decide) (by decide) (by decide) (by decide)).2.1⟩

/-- C9 counterexample: with the server running, two termination signals in
quick succession invoke the `server.close` logic twice — not once — and
once both close callbacks have run, `process.exit` has been called twice;
the shutdown sequence is re-entered because the code keeps no
shutting-down state. -/
theorem c9_counterexample :
    (gracefulShutdown (gracefulShutdown runningState)).closeCalls = 2 ∧
    (gracefulShutdown (gracefulShutdown runningState)).closeCalls ≠ 1 ∧
    (serverCloseCallback (serverCloseCallback
        (gracefulShutdown (gracefulShutdown runningState)))).exitCalls = [0, 0] := by
  exact ⟨rfl, by decide, rfl⟩

/-- C9 (amended): the shutdown handler is not idempotent: every signal
received while the server is started invokes `server.close` again, so two
signals produce two close invocations, and each completed close calls
`process.exit(0)` once more. -/
theorem c9_no_shutdown_guard (s : ProcessState) (h : s.serverStarted = true) :
    (gracefulShutdown (gracefulShutdown s)).closeCalls = s.closeCalls + 2 ∧
    (serverCloseCallback (serverCloseCallback
        (gracefulShutdown (gracefulShutdown s)))).exitCalls =
      s.exitCalls ++ [0, 0] := by
  simp [gracefulShutdown, serverCloseCallback, h]

/-- Witness for C9 (amended) at the freshly started server state. -/
theorem c9_witness :
    runningState.serverStarted = true ∧
    (gracefulShutdown (gracefulShutdown runningState)).closeCalls =
      runningState.closeCalls + 2 :=
  ⟨rfl, (c9_no_shutdown_guard runningState rfl).1⟩

/-- Joining a non-empty list of strings splits off its head. -/
theorem strJoinCons (x : String) (xs : List String) :
    String.join (x :: xs) = x ++ String.join xs := by
  apply String.ext
  simp

set_option maxHeartbeats 1000000 in
/-- Every group of the static suggestion directory is non-empty. -/
theorem apiRoutes_ne_nil (r : String) (l : List String)
    (h : apiRoutes r = some l) : l ≠ [] := by
  unfold apiRoutes at h
  repeat' split at h
  all_goals
    first
    | exact Option.noConfusion h
    | (injection h with h2; subst h2; exact List.cons_ne_nil _ _)

/-- The suggestion list is never empty: either a non-empty group matches
or the non-empty common fallback is used. -/
theorem apiSuggestions_ne_nil (url : String) : apiSuggestions url ≠ [] := by
  simp only [apiSuggestions]
  split
  · next l heq =>
      obtain ⟨a, _, hr⟩ := Option.bind_eq_some.mp heq
      exact apiRoutes_ne_nil a l hr
  · exact List.cons_ne_nil _ _

/-- Shape of the API 404 message when the suggestion list starts with
`a`: the method/path header, the bullet for `a`, the remaining bullets,
the documentation link and the tips. -/
theorem apiNotFoundMessage_decomp (method originalUrl protocol host a : String)
    (rest : List String) (h : apiSuggestions originalUrl = a :: rest) :
    apiNotFoundMessage method originalUrl protocol host =
      ("API endpoint '" ++ method ++ " " ++ originalUrl ++ "' not found." ++
        "\n\nDid you mean one of these:" ++ "\n  • ") ++ a ++
      (String.join ((rest.take 4).map (fun s => "\n  • " ++ s)) ++
        ("\n\nFor complete API documentation, visit: " ++
          (protocol ++ ("://" ++ (host ++ ("/docs" ++
        ("\n\nTroubleshooting tips:" ++
          String.join (troubleshootingTips.map (fun t => "\n  • " ++ t))))))))) := by
  simp only [apiNotFoundMessage, h, List.length_cons, Nat.succ_sub_one,
    if_pos (Nat.succ_pos _), List.take_succ_cons, List.map_cons, strJoinCons,
    String.append_assoc]

/-- C8: every request under the `/api/` prefix that reaches the API 404
responder gets an operational 404 error whose message starts by naming the
method and path and contains the first entry of a non-empty suggestion
list; the suggestion list is computed by `apiSuggestions` from the request
path alone, the same for any method, protocol and host. -/
theorem c8_apiNotFoundHandler_spec (method originalUrl protocol host : String)
    (h : "/api/".data <+: originalUrl.data) :
    apiNotFoundHandler method originalUrl protocol host =
      some (AppError (apiNotFoundMessage method originalUrl protocol host) 404) ∧
    (AppError (apiNotFoundMessage method originalUrl protocol host) 404).statusCode =
      some 404 ∧
    (AppError (apiNotFoundMessage method originalUrl protocol host) 404).isOperational =
      some true ∧
    apiSuggestions originalUrl ≠ [] ∧
    (∃ suffix, apiNotFoundMessage method originalUrl protocol host =
      "API endpoint '" ++ method ++ " " ++ originalUrl ++ "' not found." ++ suffix) ∧
    (∃ pre suf, apiNotFoundMessage method originalUrl protocol host =
      pre ++ (apiSuggestions originalUrl).headI ++ suf) := by
  obtain ⟨a, rest, hsug⟩ :=
    List.exists_cons_of_ne_nil (apiSuggestions_ne_nil originalUrl)
  refine ⟨by simp [apiNotFoundHandler, h], rfl, rfl,
    apiSuggestions_ne_nil originalUrl, ?_, ?_⟩
  · refine ⟨"\n\nDid you mean one of these:" ++ ("\n  • " ++ (a ++
      (String.join ((rest.take 4).map (fun s => "\n  • " ++ s)) ++
        ("\n\nFor complete API documentation, visit: " ++
          (protocol ++ ("://" ++ (host ++ ("/docs" ++
        ("\n\nTroubleshooting tips:" ++
          String.join (troubleshootingTips.map (fun t => "\n  • " ++ t))))))))))), ?_⟩
    rw [apiNotFoundMessage_decomp method originalUrl protocol host a rest hsug]
    simp only [String.append_assoc]
  · refine ⟨"API endpoint '" ++ method ++ " " ++ originalUrl ++ "' not found." ++
      "\n\nDid you mean one of these:" ++ "\n  • ",
      String.join ((rest.take 4).map (fun s => "\n  • " ++ s)) ++
        ("\n\nFor complete API documentation, visit: " ++
          (protocol ++ ("://" ++ (host ++ ("/docs" ++
        ("\n\nTroubleshooting tips:" ++
          String.join (troubleshootingTips.map (fun t => "\n  • " ++ t)))))))), ?_⟩
    rw [hsug]
    simp only [List.headI]
    exact apiNotFoundMessage_decomp method originalUrl protocol host a rest hsug

/-- Witness for C8: the spec's example `GET /api/xyz123`. -/
theorem c8_witness :
    ("/api/".data <+: "/api/xyz123".data) ∧
    apiNotFoundHandler "GET" "/api/xyz123" "http" "localhost:5000" =
      some (AppError
        (apiNotFoundMessage "GET" "/api/xyz123" "http" "localhost:5000") 404) ∧
    apiSuggestions "/api/xyz123" ≠ [] :=
  ⟨by decide,
   (c8_apiNotFoundHandler_spec "GET" "/api/xyz123" "http" "localhost:5000"
      (by decide)).1,
   (c8_apiNotFoundHandler_spec "GET" "/api/xyz123" "http" "localhost:5000"
      (by decide)).2.2.2.1⟩

end BlackBox
